import Mathlib

/-!
Verification of the math-ai-agent routing pipeline.

The repository ships a React frontend (`frontend/src/App.js`) and a README
describing a FastAPI backend (router, guardrails, knowledge base, web-search
adapter, feedback store).  The backend sources are not part of the tree, so
the backend components below are modelled from the specification; the
frontend functions are embedded directly from `App.js`.
-/

namespace MathAgent

/-- A web-search result snippet: `{title, url, excerpt}` (spec section 3). -/
structure SearchSnippet where
  title : String
  url : String
  excerpt : String
deriving DecidableEq, Repr

/-- A reference entry `{title, url}` attached to an answer (spec section 3). -/
structure Reference where
  title : String
  url : String
deriving DecidableEq, Repr

/-- The tier that supplied the context of an answer (spec section 3). -/
inductive Source where
  | knowledge_base
  | web_search
  | llm_knowledge
deriving DecidableEq, Repr

/-- Modelled from the spec: `RetrievalResult` produced by the Knowledge
Retriever, `{matchedText, similarityScore, sourceId}` plus the matched
entry citation used to populate references for a knowledge-base answer
(spec sections 3 and 4.4). -/
structure RetrievalResult where
  matchedText : String
  similarityScore : ℚ
  sourceId : String
  citation : Option Reference
deriving DecidableEq, Repr

/-- An `Answer`: `{solutionText, source, references}` (spec section 3). -/
structure Answer where
  solutionText : String
  source : Source
  references : List Reference
deriving DecidableEq, Repr

/-- Input-guardrail rejection reasons (spec section 4.1). -/
inductive RejectionReason where
  | TooShort
  | TooLong
  | OffTopic
deriving DecidableEq, Repr

/-- Error taxonomy reaching the caller (spec section 7). -/
inductive ErrKind where
  | InputRejected (r : RejectionReason)
  | SynthesisFailure
  | OutputRejected
deriving DecidableEq, Repr

/-- Terminal response artifact: success with an answer, or a failure
carrying a user-readable message (spec section 3, `Response`). -/
inductive Response where
  | success (a : Answer)
  | failure (msg : String)
deriving DecidableEq, Repr

/-- Trimming of leading and trailing whitespace on the character list;
models JavaScript `String.prototype.trim` and the spec's "after trim". -/
def trimChars (l : List Char) : List Char :=
  ((l.dropWhile Char.isWhitespace).reverse.dropWhile Char.isWhitespace).reverse

/-- Whitespace trimming on strings (see `trimChars`). -/
def jsTrim (s : String) : String := ⟨trimChars s.data⟩

/-- Modelled from the spec: the Input Guardrail
`validate(rawQuery) -> Result<CleanQuery, RejectionReason>` (spec
section 4.1); the backend file `guardrails/input_guard.py` is not in the
tree.  Trims the query, rejects `TooShort`/`TooLong` when the trimmed
length is outside [5, 500], rejects `OffTopic` when the topical classifier
(a parameter here) rejects it, and otherwise returns the trimmed query
unchanged. -/
def inputValidate (isMath : String → Bool) (raw : String) :
    Except RejectionReason String :=
  if (jsTrim raw).length < 5 then .error .TooShort
  else if 500 < (jsTrim raw).length then .error .TooLong
  else if isMath (jsTrim raw) then .ok (jsTrim raw)
  else .error .OffTopic

/-- Modelled from the spec: the Knowledge Retriever acceptance policy
(spec section 4.2); the backend file `knowledge_base/kb_manager.py` is not
in the tree.  Given the top match from the vector-search collaborator, a
result is a hit iff `similarityScore ≥ threshold`; below threshold it
returns `none`, not an error. -/
def kbSearch (threshold : ℚ) (top : Option RetrievalResult) :
    Option RetrievalResult :=
  match top with
  | none => none
  | some r => if threshold ≤ r.similarityScore then some r else none

/-- Modelled from the spec: the Web Search Adapter failure containment
(spec section 4.3); the backend files under `mcp_tools/` are not in the
tree.  Provider timeouts or errors degrade to an empty sequence instead of
propagating as query failures; a successful provider response is passed
through without reordering. -/
def webAdapt (raw : Except Unit (List SearchSnippet)) : List SearchSnippet :=
  match raw with
  | .error _ => []
  | .ok snips => snips

/-- The context handed to the Answer Synthesizer: a knowledge-base match, a
non-empty list of web snippets, or nothing (spec section 4.4). -/
inductive SynthContext where
  | fromKB (r : RetrievalResult)
  | fromWeb (snips : List SearchSnippet)
  | noContext
deriving DecidableEq, Repr

/-- The source tier determined by the context (spec section 4.4). -/
def SynthContext.sourceTag : SynthContext → Source
  | .fromKB _ => .knowledge_base
  | .fromWeb _ => .web_search
  | .noContext => .llm_knowledge

/-- Modelled from the spec: references are populated from snippet
titles/urls when the source is web search, from the matched entry citation
(if any) for a knowledge-base answer, and are empty otherwise (spec
section 4.4). -/
def SynthContext.refs : SynthContext → List Reference
  | .fromKB r =>
      match r.citation with
      | some c => [c]
      | none => []
  | .fromWeb snips => snips.map (fun s => ⟨s.title, s.url⟩)
  | .noContext => []

/-- The optional grounding text extracted from the context (spec
section 4.4). -/
def SynthContext.text : SynthContext → Option String
  | .fromKB r => some r.matchedText
  | .fromWeb snips =>
      some (String.intercalate "\n" (snips.map SearchSnippet.excerpt))
  | .noContext => none

/-- Modelled from the spec: the Answer Synthesizer
`synthesize(query, context) -> Answer` (spec section 4.4); the backend
file `agents/math_agent.py` is not in the tree.  `complete` is the
text-completion collaborator (query, optional context text, strict
directive flag); `none` models an upstream model error or timeout.  The
synthesizer returns a non-empty `solutionText` tagged with the context
tier, or fails with `SynthesisFailure`; it never returns a partially-built
answer. -/
def synthesize (complete : String → Option String → Bool → Option String)
    (q : String) (ctx : SynthContext) (strict : Bool) : Except ErrKind Answer :=
  match complete q ctx.text strict with
  | none => .error .SynthesisFailure
  | some t =>
      if t.isEmpty then .error .SynthesisFailure
      else .ok ⟨t, ctx.sourceTag, ctx.refs⟩

/-- Modelled from the spec: the environment of collaborators a single
request runs against — topical classifier, knowledge-base top match and
acceptance threshold, raw web-search outcome, text-completion oracle, and
the Output Guardrail verdict (spec sections 4 and 6). -/
structure Env where
  isMath : String → Bool
  threshold : ℚ
  kbTop : Option RetrievalResult
  webRaw : Except Unit (List SearchSnippet)
  complete : String → Option String → Bool → Option String
  outputValid : Answer → Bool

/-- Modelled from the spec: the distinct user-readable message attached to
each error that reaches the caller (spec section 7). -/
def errMessage : ErrKind → String
  | .InputRejected .TooShort =>
      "Question is too short: the length must be at least 5 characters."
  | .InputRejected .TooLong =>
      "Question is too long: the length must be at most 500 characters."
  | .InputRejected .OffTopic =>
      "Question does not look like a mathematics question."
  | .SynthesisFailure =>
      "The solver could not produce a solution. Please try again."
  | .OutputRejected =>
      "The generated solution did not pass quality checks. Please try again."

/-- Modelled from the spec: the synthesis plus output-validation phase of
the Router (spec section 4.6, transitions 4 and 5).  Synthesis failure is
fatal; an output-guardrail failure re-enters synthesis once with a
stricter directive and the same context; a second failure terminates in
`Failed(OutputRejected)`.  Returns the response together with the number
of synthesizer invocations. -/
def synthesisStage (env : Env) (q : String) (ctx : SynthContext) :
    Response × Nat :=
  match synthesize env.complete q ctx false with
  | .error e => (.failure (errMessage e), 1)
  | .ok a =>
      if env.outputValid a then (.success a, 1)
      else
        match synthesize env.complete q ctx true with
        | .error e => (.failure (errMessage e), 2)
        | .ok a2 =>
            if env.outputValid a2 then (.success a2, 2)
            else (.failure (errMessage .OutputRejected), 2)

/-- The observable run of one request: the terminal response, whether the
Knowledge Retriever and the Web Search Adapter were invoked, and how many
times the Answer Synthesizer ran. -/
structure RunResult where
  response : Response
  kbCalled : Bool
  webCalled : Bool
  synthCalls : Nat
deriving DecidableEq, Repr

/-- Modelled from the spec: the context chosen at the `Retrieving(Web)`
stage (spec section 4.6, transition 3): non-empty adapted snippets become
the web context, an empty result falls through to no-context synthesis. -/
def webContext (raw : Except Unit (List SearchSnippet)) : SynthContext :=
  if (webAdapt raw).isEmpty then .noContext else .fromWeb (webAdapt raw)

/-- Modelled from the spec: the Router state machine for one request (spec
section 4.6); the backend files `main.py` and `agents/math_agent.py` are
not in the tree.  `Validating → Retrieving(KB) → Retrieving(Web) →
Synthesizing → ValidatingOutput → Done`, with `Failed` reachable from any
stage: input rejection fails immediately with no retrieval; a KB hit
short-circuits web search; a KB miss consults the web adapter and takes
`webContext`. -/
def route (env : Env) (raw : String) : RunResult :=
  match inputValidate env.isMath raw with
  | .error r => ⟨.failure (errMessage (.InputRejected r)), false, false, 0⟩
  | .ok q =>
      match kbSearch env.threshold env.kbTop with
      | some r =>
          ⟨(synthesisStage env q (.fromKB r)).1, true, false,
           (synthesisStage env q (.fromKB r)).2⟩
      | none =>
          ⟨(synthesisStage env q (webContext env.webRaw)).1, true, true,
           (synthesisStage env q (webContext env.webRaw)).2⟩

/-- An append-only feedback record `{query, solutionText, rating,
timestamp}` (spec section 3). -/
structure FeedbackRecord where
  query : String
  solutionText : String
  rating : Nat
  timestamp : Nat
deriving DecidableEq, Repr

/-- The Feedback Store error channel (spec section 4.7). -/
inductive FeedbackError where
  | InvalidRating
deriving DecidableEq, Repr

/-- Aggregate feedback statistics `{count, meanRating, lowRatingCount}`
(spec section 4.7). -/
structure FeedbackStats where
  count : Nat
  meanRating : ℚ
  lowRatingCount : Nat
deriving DecidableEq, Repr

/-- Modelled from the spec: the Feedback Store
`record(query, solutionText, rating)` (spec section 4.7); the backend file
`agents/feedback_agent.py` is not in the tree.  A rating outside [1, 5]
fails with `InvalidRating`; otherwise a fresh record is appended (no
idempotency: each submission is a new record). -/
def record (store : List FeedbackRecord) (q s : String) (rating ts : Nat) :
    Except FeedbackError (List FeedbackRecord) :=
  if rating < 1 ∨ 5 < rating then .error .InvalidRating
  else .ok (store ++ [⟨q, s, rating, ts⟩])

/-- Modelled from the spec: the Feedback Store `stats()` (spec
section 4.7).  Aggregates are derived from the records, not stored; a
record with rating below 3 counts as flagged. -/
def stats (store : List FeedbackRecord) : FeedbackStats :=
  ⟨store.length,
   if store.length = 0 then 0
   else (store.map (fun r => (r.rating : ℚ))).sum / store.length,
   (store.filter (fun r => r.rating < 3)).length⟩

/-! ## Frontend, embedded from `frontend/src/App.js` -/

/-- The shape of the object held in the `response` state variable of
`App.js`: either the backend payload of `/api/solve` (success with
solution/source/references) or the failure object built in the catch
branch of `handleSubmit` (success false with a message).  Fields missing
on a given object are `none`, matching an absent property in JavaScript. -/
structure SolveResponse where
  success : Bool
  solution : Option String
  source : Option String
  references : Option (List Reference)
  message : Option String
deriving DecidableEq, Repr

/-- The component state of `App` in `App.js`: the `question`, `response`,
`loading`, `showFeedback` and `rating` state hooks. -/
structure AppState where
  question : String
  response : Option SolveResponse
  loading : Bool
  showFeedback : Bool
  rating : Nat
deriving DecidableEq, Repr

/-- JavaScript `a || b` on an optional string: an absent or empty (falsy)
left operand yields the right operand.  Used by the catch branch of
`handleSubmit` for `error.response?.data?.detail || fallback`. -/
def jsStringOr (a : Option String) (b : String) : String :=
  match a with
  | some s => if s.isEmpty then b else s
  | none => b

/-- The failure object built in the catch branch of `handleSubmit`
(`App.js` lines 31-36): `success: false` with the server-provided detail
or a generic message. -/
def catchResponse (detail : Option String) : SolveResponse :=
  ⟨false, none, none, none,
   some (jsStringOr detail
     "An error occurred while processing your question. Please try again.")⟩

/-- `handleSubmit` from `App.js` (lines 16-38), as a state transition.
The guard `if (!question.trim()) return;` aborts on an empty trimmed
question before any state write or network call.  Otherwise the POST to
`/api/solve` is issued; `serverResult` is its outcome (`.error detail`
models a rejected promise carrying `error.response?.data?.detail`).  The
returned boolean says whether the POST was issued; the returned state is
the component state after the handler finishes (loading reset, response
and feedback visibility set per branch). -/
def handleSubmit (st : AppState)
    (serverResult : Except (Option String) SolveResponse) :
    Bool × AppState :=
  if (jsTrim st.question).isEmpty then (false, st)
  else
    match serverResult with
    | .ok data => (true, ⟨st.question, some data, false, true, 0⟩)
    | .error detail => (true, ⟨st.question, some (catchResponse detail), false, false, 0⟩)

/-- The `disabled` expression of the submit button in `App.js`
(line 127): `loading || !question.trim()`. -/
def submitDisabled (st : AppState) : Bool :=
  st.loading || (jsTrim st.question).isEmpty

/-- The icons of `App.js` that `getSourceIcon` can return. -/
inductive Icon where
  | bookOpen
  | globe
  | brain
  | lightbulb
deriving DecidableEq, Repr

/-- `getSourceIcon` from `App.js` (lines 54-62): `null` when there is no
response, otherwise a switch on `response.source` with `Lightbulb` as the
default branch (an absent `source` also falls to the default). -/
def getSourceIcon (response : Option SolveResponse) : Option Icon :=
  match response with
  | none => none
  | some r =>
      if r.source = some "knowledge_base" then some .bookOpen
      else if r.source = some "web_search" then some .globe
      else if r.source = some "llm_knowledge" then some .brain
      else some .lightbulb

/-- `getSourceColor` from `App.js` (lines 64-72): the default color
`#6B7280` when there is no response or the source is unrecognized. -/
def getSourceColor (response : Option SolveResponse) : String :=
  match response with
  | none => "#6B7280"
  | some r =>
      if r.source = some "knowledge_base" then "#10B981"
      else if r.source = some "web_search" then "#3B82F6"
      else if r.source = some "llm_knowledge" then "#8B5CF6"
      else "#6B7280"

/-- What the response card of `App.js` renders (lines 161-252). -/
inductive ResponseCard where
  | nothing
  | successCard (solution : String) (references : List Reference)
  | errorCard (message : String) (hasTryAgain : Bool)
deriving DecidableEq, Repr

/-- JSX text interpolation: an absent value renders as empty text. -/
def jsRenderText (o : Option String) : String :=
  match o with
  | some s => s
  | none => ""

/-- The response card of `App.js` (lines 161-252): nothing without a
response; the success branch shows the solution text and references; the
failure branch is the error-state block (lines 238-250) showing
`response.message` and an unconditional Try Again button. -/
def renderResponseCard (response : Option SolveResponse) : ResponseCard :=
  match response with
  | none => .nothing
  | some r =>
      if r.success then
        .successCard (jsRenderText r.solution)
          (match r.references with
           | some refs => refs
           | none => [])
      else .errorCard (jsRenderText r.message) true

/-- `handleFeedback` from `App.js` (lines 40-52): sets the `rating` state
and posts `{question, solution: response.solution || empty, rating}` to
`/api/feedback`.  Returns the new state and the posted body. -/
def handleFeedback (st : AppState) (ratingValue : Nat) :
    AppState × (String × String × Nat) :=
  (⟨st.question, st.response, st.loading, st.showFeedback, ratingValue⟩,
   (st.question,
    jsStringOr (match st.response with
                | some r => r.solution
                | none => none) "",
    ratingValue))

/-! ## Concrete demonstration environments -/

/-- A concrete knowledge-base match used to exercise the pipeline. -/
def demoKB : RetrievalResult :=
  ⟨"Factor the quadratic: (x-2)(x-3) = 0, so x = 2 or x = 3.", mkRat 9 10, "kb-001",
   some ⟨"Algebra Basics", "kb://algebra/quadratics"⟩⟩

/-- A concrete solution text produced by the demonstration completion. -/
def demoSolution : String :=
  "Step 1: identify the equation. Step 2: solve it."

/-- A text-completion oracle that always answers with `demoSolution`. -/
def demoComplete : String → Option String → Bool → Option String :=
  fun _ _ _ => some demoSolution

/-- A text-completion oracle that always fails (upstream error/timeout). -/
def demoCompleteFail : String → Option String → Bool → Option String :=
  fun _ _ _ => none

/-- A concrete web-search snippet. -/
def demoSnippet : SearchSnippet :=
  ⟨"Quadratic equations", "https://example.org/quadratic",
   "Use the quadratic formula."⟩

/-- Environment with a knowledge-base hit (score 9/10 against
threshold 3/4). -/
def envKB : Env :=
  ⟨fun _ => true, mkRat 3 4, some demoKB, .ok [], demoComplete, fun _ => true⟩

/-- Environment with a knowledge-base miss and one web snippet. -/
def envWeb : Env :=
  ⟨fun _ => true, mkRat 3 4, none, .ok [demoSnippet], demoComplete, fun _ => true⟩

/-- Environment with a knowledge-base miss and a web provider error. -/
def envLLM : Env :=
  ⟨fun _ => true, mkRat 3 4, none, .error (), demoComplete, fun _ => true⟩

/-- Environment whose Output Guardrail rejects every answer. -/
def envReject : Env :=
  ⟨fun _ => true, mkRat 3 4, none, .ok [], demoComplete, fun _ => false⟩

/-- The answer the pipeline produces in `envKB`. -/
def demoAnswerKB : Answer :=
  ⟨demoSolution, .knowledge_base, [⟨"Algebra Basics", "kb://algebra/quadratics"⟩]⟩

/-- The answer the pipeline produces in `envWeb`. -/
def demoAnswerWeb : Answer :=
  ⟨demoSolution, .web_search, [⟨"Quadratic equations", "https://example.org/quadratic"⟩]⟩

/-- The answer the pipeline produces in `envLLM`. -/
def demoAnswerLLM : Answer :=
  ⟨demoSolution, .llm_knowledge, []⟩

/-! ## Helper lemmas about the synthesis and validation phase -/

theorem synthesize_ok_spec {c : String → Option String → Bool → Option String}
    {q : String} {ctx : SynthContext} {b : Bool} {a : Answer}
    (h : synthesize c q ctx b = .ok a) :
    a.source = ctx.sourceTag ∧ a.references = ctx.refs ∧
      a.solutionText.isEmpty = false := by
  unfold synthesize at h
  cases hc : c q ctx.text b with
  | none => rw [hc] at h; cases h
  | some t =>
      rw [hc] at h
      cases ht : t.isEmpty with
      | true => simp [ht] at h
      | false =>
          simp [ht] at h
          subst h
          exact ⟨rfl, rfl, ht⟩

theorem synthesize_error_spec
    {c : String → Option String → Bool → Option String}
    {q : String} {ctx : SynthContext} {b : Bool} {e : ErrKind}
    (h : synthesize c q ctx b = .error e) : e = .SynthesisFailure := by
  unfold synthesize at h
  cases hc : c q ctx.text b with
  | none => rw [hc] at h; exact (Except.error.inj h).symm
  | some t =>
      rw [hc] at h
      cases ht : t.isEmpty with
      | true => simp [ht] at h; exact h.symm
      | false => simp [ht] at h

theorem synthesisStage_success_spec {env : Env} {q : String}
    {ctx : SynthContext} {a : Answer}
    (h : (synthesisStage env q ctx).1 = .success a) :
    a.source = ctx.sourceTag ∧ a.references = ctx.refs := by
  unfold synthesisStage at h
  cases h1 : synthesize env.complete q ctx false with
  | error e => rw [h1] at h; simp at h
  | ok a1 =>
      rw [h1] at h
      cases hv : env.outputValid a1 with
      | true =>
          simp [hv] at h
          subst h
          exact ⟨(synthesize_ok_spec h1).1, (synthesize_ok_spec h1).2.1⟩
      | false =>
          simp only [hv, Bool.false_eq_true, if_false] at h
          cases h2 : synthesize env.complete q ctx true with
          | error e => rw [h2] at h; simp at h
          | ok a2 =>
              rw [h2] at h
              cases hv2 : env.outputValid a2 with
              | true =>
                  simp [hv2] at h
                  subst h
                  exact ⟨(synthesize_ok_spec h2).1, (synthesize_ok_spec h2).2.1⟩
              | false => simp [hv2] at h

theorem synthesisStage_snd_le_two (env : Env) (q : String)
    (ctx : SynthContext) : (synthesisStage env q ctx).2 ≤ 2 := by
  unfold synthesisStage
  cases h1 : synthesize env.complete q ctx false with
  | error e => simp
  | ok a1 =>
      cases hv : env.outputValid a1 with
      | true => simp [hv]
      | false =>
          simp only [hv, Bool.false_eq_true, if_false]
          cases h2 : synthesize env.complete q ctx true with
          | error e => simp
          | ok a2 => cases hv2 : env.outputValid a2 <;> simp [hv2]

theorem synthesisStage_failure_msg {env : Env} {q : String}
    {ctx : SynthContext} {m : String}
    (h : (synthesisStage env q ctx).1 = .failure m) :
    ∃ e, m = errMessage e := by
  unfold synthesisStage at h
  cases h1 : synthesize env.complete q ctx false with
  | error e => rw [h1] at h; simp at h; exact ⟨e, h.symm⟩
  | ok a1 =>
      rw [h1] at h
      cases hv : env.outputValid a1 with
      | true => simp [hv] at h
      | false =>
          simp only [hv, Bool.false_eq_true, if_false] at h
          cases h2 : synthesize env.complete q ctx true with
          | error e => rw [h2] at h; simp at h; exact ⟨e, h.symm⟩
          | ok a2 =>
              rw [h2] at h
              cases hv2 : env.outputValid a2 with
              | true => simp [hv2] at h
              | false =>
                  simp [hv2] at h
                  exact ⟨.OutputRejected, h.symm⟩

theorem errMessage_isEmpty_false (e : ErrKind) :
    (errMessage e).isEmpty = false := by
  cases e with
  | InputRejected r => cases r <;> rfl
  | SynthesisFailure => rfl
  | OutputRejected => rfl

/-! ## Claim theorems -/

/-- C1: for every query accepted by the Input Guardrail whose knowledge
retriever similarity score is at or above the configured threshold, the
pipeline answer has source `knowledge_base` and the Web Search Adapter is
never invoked for that request (tier short-circuit). -/
theorem claim_C1_kb_hit_short_circuit (env : Env) (raw q : String)
    (r : RetrievalResult)
    (hq : inputValidate env.isMath raw = .ok q)
    (hkb : env.kbTop = some r)
    (hs : env.threshold ≤ r.similarityScore) :
    (route env raw).webCalled = false ∧
      ∀ a, (route env raw).response = .success a →
        a.source = .knowledge_base := by
  have hsearch : kbSearch env.threshold env.kbTop = some r := by
    rw [hkb]
    unfold kbSearch
    show (if env.threshold ≤ r.similarityScore then some r else none) = some r
    rw [if_pos hs]
  unfold route
  rw [hq, hsearch]
  refine ⟨rfl, ?_⟩
  intro a ha
  have ha' : (synthesisStage env q (.fromKB r)).1 = .success a := ha
  exact (synthesisStage_success_spec ha').1

/-- C2: for every query whose knowledge retriever score is below threshold
and whose Web Search Adapter returns a non-empty snippet sequence, the
resulting answer has source `web_search` and a non-empty references
list. -/
theorem claim_C2_web_tier (env : Env) (raw q : String)
    (hq : inputValidate env.isMath raw = .ok q)
    (hkb : kbSearch env.threshold env.kbTop = none)
    (hweb : webAdapt env.webRaw ≠ []) :
    ∀ a, (route env raw).response = .success a →
      a.source = .web_search ∧ a.references ≠ [] := by
  intro a ha
  have hctx : webContext env.webRaw = .fromWeb (webAdapt env.webRaw) := by
    unfold webContext
    simp [List.isEmpty_iff, hweb]
  unfold route at ha
  rw [hq, hkb, hctx] at ha
  have ha' : (synthesisStage env q (.fromWeb (webAdapt env.webRaw))).1
      = .success a := ha
  obtain ⟨h1, h2⟩ := synthesisStage_success_spec ha'
  refine ⟨h1, ?_⟩
  rw [h2]
  simpa [SynthContext.refs] using hweb

/-- C3: for every query with a knowledge-base miss and empty web results —
including a web provider timeout/error, degraded to an empty sequence
rather than a request failure — the pipeline still succeeds with an answer
whose source is `llm_knowledge` and whose references list is empty,
provided the completion collaborator answers with non-empty text that the
Output Guardrail accepts. -/
theorem claim_C3_llm_fallback (env : Env) (raw q t : String)
    (hq : inputValidate env.isMath raw = .ok q)
    (hkb : kbSearch env.threshold env.kbTop = none)
    (hweb : env.webRaw = .error () ∨ env.webRaw = .ok [])
    (hc : env.complete q none false = some t)
    (ht : t.isEmpty = false)
    (hv : env.outputValid ⟨t, .llm_knowledge, []⟩ = true) :
    (route env raw).response = .success ⟨t, .llm_knowledge, []⟩ := by
  have hadapt : webAdapt env.webRaw = [] := by
    rcases hweb with h | h <;> rw [h] <;> rfl
  have hctx : webContext env.webRaw = .noContext := by
    unfold webContext
    rw [hadapt]
    rfl
  have hsynth : synthesize env.complete q .noContext false
      = .ok ⟨t, .llm_knowledge, []⟩ := by
    unfold synthesize
    simp only [SynthContext.text]
    rw [hc]
    simp [ht]
    exact ⟨rfl, rfl⟩
  unfold route
  rw [hq, hkb, hctx]
  show (synthesisStage env q .noContext).1 = _
  unfold synthesisStage
  rw [hsynth]
  simp [hv]

/-- C4: in every request the output-guardrail retry is invoked at most
once — the synthesizer runs at most twice — and two consecutive
output-guardrail failures always terminate the request in
`Failed(OutputRejected)`; a third synthesis attempt never occurs. -/
theorem claim_C4_retry_once (env : Env) (raw : String) :
    (route env raw).synthCalls ≤ 2 ∧
    ∀ (q : String) (ctx : SynthContext) (a a2 : Answer),
      synthesize env.complete q ctx false = .ok a →
      env.outputValid a = false →
      synthesize env.complete q ctx true = .ok a2 →
      env.outputValid a2 = false →
      synthesisStage env q ctx = (.failure (errMessage .OutputRejected), 2) := by
  constructor
  · unfold route
    cases hin : inputValidate env.isMath raw with
    | error r => exact Nat.zero_le 2
    | ok q =>
        cases hkb : kbSearch env.threshold env.kbTop with
        | some r => exact synthesisStage_snd_le_two env q _
        | none => exact synthesisStage_snd_le_two env q _
  · intro q ctx a a2 h1 hv1 h2 hv2
    unfold synthesisStage
    rw [h1]
    simp only [hv1, Bool.false_eq_true, if_false]
    rw [h2]
    simp [hv2]

/-- C5: for every raw query whose trimmed length is strictly below 5 or
strictly above 500, the Input Guardrail rejects it with `TooShort`
respectively `TooLong`, and the Router invokes neither the Knowledge
Retriever nor the Web Search Adapter (and never synthesizes). -/
theorem claim_C5_length_gate (env : Env) (raw : String) :
    ((jsTrim raw).length < 5 →
      inputValidate env.isMath raw = .error .TooShort) ∧
    (500 < (jsTrim raw).length →
      inputValidate env.isMath raw = .error .TooLong) ∧
    ((jsTrim raw).length < 5 ∨ 500 < (jsTrim raw).length →
      (route env raw).kbCalled = false ∧ (route env raw).webCalled = false ∧
        (route env raw).synthCalls = 0) := by
  have hshort : (jsTrim raw).length < 5 →
      inputValidate env.isMath raw = .error .TooShort := by
    intro h
    unfold inputValidate
    rw [if_pos h]
  have hlong : 500 < (jsTrim raw).length →
      inputValidate env.isMath raw = .error .TooLong := by
    intro h
    unfold inputValidate
    rw [if_neg (by omega), if_pos h]
  refine ⟨hshort, hlong, ?_⟩
  intro h
  have hrej : ∃ r, inputValidate env.isMath raw = .error r := by
    rcases h with h | h
    exacts [⟨_, hshort h⟩, ⟨_, hlong h⟩]
  obtain ⟨r, hr⟩ := hrej
  unfold route
  rw [hr]
  exact ⟨rfl, rfl, rfl⟩

/-- C6: every invocation of the Answer Synthesizer yields either an answer
with non-empty solution text or a `SynthesisFailure` error; a
partially-built answer is never returned. -/
theorem claim_C6_synthesizer_total
    (c : String → Option String → Bool → Option String)
    (q : String) (ctx : SynthContext) (strict : Bool) :
    (∀ a, synthesize c q ctx strict = .ok a →
      a.solutionText.isEmpty = false) ∧
    (∀ e, synthesize c q ctx strict = .error e → e = .SynthesisFailure) :=
  ⟨fun _ h => (synthesize_ok_spec h).2.2, fun _ h => synthesize_error_spec h⟩

/-- C7: the Feedback Store `record` fails with `InvalidRating` for every
rating outside [1, 5] (in particular 0 and 6); for every rating in 1..5 it
succeeds and `stats().count` afterwards is exactly one larger than
before. -/
theorem claim_C7_feedback_rating (store : List FeedbackRecord)
    (q s : String) (ts : Nat) :
    (∀ r, r < 1 ∨ 5 < r → record store q s r ts = .error .InvalidRating) ∧
    (∀ r, 1 ≤ r → r ≤ 5 →
      record store q s r ts = .ok (store ++ [⟨q, s, r, ts⟩]) ∧
      (stats (store ++ [⟨q, s, r, ts⟩])).count = (stats store).count + 1) := by
  constructor
  · intro r h
    unfold record
    rw [if_pos h]
  · intro r h1 h5
    have hno : ¬(r < 1 ∨ 5 < r) := by omega
    constructor
    · unfold record
      rw [if_neg hno]
    · unfold stats
      simp

/-- The JavaScript fallback `a || b` is non-empty whenever `b` is. -/
theorem jsStringOr_isEmpty_false (a : Option String) (b : String)
    (hb : b.isEmpty = false) : (jsStringOr a b).isEmpty = false := by
  cases a with
  | none => exact hb
  | some s =>
      show (if s.isEmpty = true then b else s).isEmpty = false
      cases hs : s.isEmpty with
      | true => exact hb
      | false => exact hs

/-- C8: every rejected or failed request carries `success:false` with a
non-empty user-readable message: every failure message the Router produces
is non-empty, the response card of `App.js` renders the message of a
non-success response together with an unconditional Try Again control, and
the catch branch of `handleSubmit` always builds a non-success response
with a non-empty message. -/
theorem claim_C8_failure_surface :
    (∀ (env : Env) (raw m : String),
        (route env raw).response = .failure m → m.isEmpty = false) ∧
    (∀ r : SolveResponse, r.success = false →
        renderResponseCard (some r)
          = .errorCard (jsRenderText r.message) true) ∧
    (∀ detail, (catchResponse detail).success = false ∧
        (jsRenderText (catchResponse detail).message).isEmpty = false) := by
  refine ⟨?_, ?_, ?_⟩
  · intro env raw m h
    have hmsg : ∃ e, m = errMessage e := by
      unfold route at h
      cases hin : inputValidate env.isMath raw with
      | error r =>
          rw [hin] at h
          have h' : Response.failure (errMessage (.InputRejected r))
              = .failure m := h
          exact ⟨_, (Response.failure.inj h').symm⟩
      | ok q =>
          rw [hin] at h
          cases hkb : kbSearch env.threshold env.kbTop with
          | some r =>
              rw [hkb] at h
              exact synthesisStage_failure_msg h
          | none =>
              rw [hkb] at h
              exact synthesisStage_failure_msg h
    obtain ⟨e, he⟩ := hmsg
    rw [he]
    exact errMessage_isEmpty_false e
  · intro r hr
    simp [renderResponseCard, hr]
  · intro detail
    refine ⟨rfl, ?_⟩
    show (jsStringOr detail
      "An error occurred while processing your question. Please try again.").isEmpty
        = false
    exact jsStringOr_isEmpty_false _ _ rfl

/-- C9: for every question whose trim is empty, `handleSubmit` returns
without issuing a POST and without modifying any component state, and the
submit button is disabled. -/
theorem claim_C9_empty_question (st : AppState)
    (res : Except (Option String) SolveResponse)
    (h : jsTrim st.question = "") :
    handleSubmit st res = (false, st) ∧ submitDisabled st = true := by
  have he : (jsTrim st.question).isEmpty = true := by rw [h]; rfl
  constructor
  · unfold handleSubmit
    rw [if_pos he]
  · unfold submitDisabled
    rw [he]
    exact Bool.or_true _

/-- C10: `getSourceIcon` and `getSourceColor` are total over every
possible source tag: the three known tags map to pairwise distinct icons
and pairwise distinct colors, any other (or absent) tag maps to the
default icon `Lightbulb` and default color `#6B7280`, and a null response
yields a null icon and the default color. -/
theorem claim_C10_source_totality :
    getSourceIcon none = none ∧
    getSourceColor none = "#6B7280" ∧
    (∀ r : SolveResponse, r.source = some "knowledge_base" →
        getSourceIcon (some r) = some .bookOpen ∧
        getSourceColor (some r) = "#10B981") ∧
    (∀ r : SolveResponse, r.source = some "web_search" →
        getSourceIcon (some r) = some .globe ∧
        getSourceColor (some r) = "#3B82F6") ∧
    (∀ r : SolveResponse, r.source = some "llm_knowledge" →
        getSourceIcon (some r) = some .brain ∧
        getSourceColor (some r) = "#8B5CF6") ∧
    (∀ (r : SolveResponse) (s : String), r.source = some s →
        s ≠ "knowledge_base" → s ≠ "web_search" → s ≠ "llm_knowledge" →
        getSourceIcon (some r) = some .lightbulb ∧
        getSourceColor (some r) = "#6B7280") ∧
    (∀ r : SolveResponse, r.source = none →
        getSourceIcon (some r) = some .lightbulb ∧
        getSourceColor (some r) = "#6B7280") ∧
    (Icon.bookOpen ≠ Icon.globe ∧ Icon.bookOpen ≠ Icon.brain ∧
      Icon.globe ≠ Icon.brain) ∧
    (("#10B981" : String) ≠ "#3B82F6" ∧ ("#10B981" : String) ≠ "#8B5CF6" ∧
      ("#3B82F6" : String) ≠ "#8B5CF6") := by
  refine ⟨rfl, rfl, ?_, ?_, ?_, ?_, ?_, by decide, by decide⟩
  · intro r hr
    constructor <;> simp [getSourceIcon, getSourceColor, hr]
  · intro r hr
    constructor <;> simp [getSourceIcon, getSourceColor, hr]
  · intro r hr
    constructor <;> simp [getSourceIcon, getSourceColor, hr]
  · intro r s hr h1 h2 h3
    constructor <;> simp [getSourceIcon, getSourceColor, hr, h1, h2, h3]
  · intro r hr
    constructor <;> simp [getSourceIcon, getSourceColor, hr]

/-! ## Witnesses at concrete inputs -/

/-- Witness for C1: a knowledge-base hit (score 9/10, threshold 3/4) never
reaches the web adapter and yields a knowledge-base answer. -/
theorem claim_C1_witness :
    (route envKB "Solve x^2 - 5x + 6 = 0").webCalled = false ∧
    demoAnswerKB.source = .knowledge_base :=
  ⟨(claim_C1_kb_hit_short_circuit envKB "Solve x^2 - 5x + 6 = 0"
      "Solve x^2 - 5x + 6 = 0" demoKB rfl rfl (by decide)).1,
   (claim_C1_kb_hit_short_circuit envKB "Solve x^2 - 5x + 6 = 0"
      "Solve x^2 - 5x + 6 = 0" demoKB rfl rfl (by decide)).2
     demoAnswerKB rfl⟩

/-- Witness for C2: a knowledge-base miss with one web snippet yields a
web-search answer with a non-empty references list. -/
theorem claim_C2_witness :
    demoAnswerWeb.source = .web_search ∧ demoAnswerWeb.references ≠ [] :=
  claim_C2_web_tier envWeb "Solve x^2 - 5x + 6 = 0" "Solve x^2 - 5x + 6 = 0"
    rfl rfl (by decide) demoAnswerWeb rfl

/-- Witness for C3: a knowledge-base miss with a web provider error still
succeeds from the model latent knowledge with empty references. -/
theorem claim_C3_witness :
    (route envLLM "Solve x^2 - 5x + 6 = 0").response
      = .success demoAnswerLLM :=
  claim_C3_llm_fallback envLLM "Solve x^2 - 5x + 6 = 0"
    "Solve x^2 - 5x + 6 = 0" demoSolution rfl rfl (Or.inl rfl)
    rfl rfl rfl

/-- Witness for C4: with an always-rejecting Output Guardrail the request
runs the synthesizer exactly twice and fails with `OutputRejected`. -/
theorem claim_C4_witness :
    (route envReject "Solve x^2 - 5x + 6 = 0").synthCalls ≤ 2 ∧
    synthesisStage envReject "Solve x^2 - 5x + 6 = 0" .noContext
      = (.failure (errMessage .OutputRejected), 2) :=
  ⟨(claim_C4_retry_once envReject "Solve x^2 - 5x + 6 = 0").1,
   (claim_C4_retry_once envReject "Solve x^2 - 5x + 6 = 0").2
     "Solve x^2 - 5x + 6 = 0" .noContext demoAnswerLLM demoAnswerLLM
     rfl rfl rfl rfl⟩

/-- Witness for C5: the 4-character query `asdf` is rejected as too short
and no retrieval tier runs. -/
theorem claim_C5_witness :
    inputValidate envKB.isMath "asdf" = .error .TooShort ∧
    (route envKB "asdf").kbCalled = false ∧
    (route envKB "asdf").webCalled = false ∧
    (route envKB "asdf").synthCalls = 0 :=
  ⟨(claim_C5_length_gate envKB "asdf").1 (by decide),
   (claim_C5_length_gate envKB "asdf").2.2 (Or.inl (by decide))⟩

/-- Witness for C6: the demonstration completion yields a non-empty
solution and the failing completion yields `SynthesisFailure`. -/
theorem claim_C6_witness :
    demoAnswerLLM.solutionText.isEmpty = false ∧
    ErrKind.SynthesisFailure = ErrKind.SynthesisFailure :=
  ⟨(claim_C6_synthesizer_total demoComplete "Solve x^2 - 5x + 6 = 0"
      .noContext false).1 demoAnswerLLM rfl,
   (claim_C6_synthesizer_total demoCompleteFail "Solve x^2 - 5x + 6 = 0"
      .noContext false).2 .SynthesisFailure rfl⟩

/-- Witness for C7: ratings 0 and 6 are rejected, rating 4 is appended and
the count grows by one. -/
theorem claim_C7_witness :
    record [] "q1" "s1" 0 7 = .error .InvalidRating ∧
    record [] "q1" "s1" 6 7 = .error .InvalidRating ∧
    record [] "q1" "s1" 4 7 = .ok [⟨"q1", "s1", 4, 7⟩] ∧
    (stats [(⟨"q1", "s1", 4, 7⟩ : FeedbackRecord)]).count
      = (stats []).count + 1 :=
  ⟨(claim_C7_feedback_rating [] "q1" "s1" 7).1 0 (Or.inl (by decide)),
   (claim_C7_feedback_rating [] "q1" "s1" 7).1 6 (Or.inr (by decide)),
   ((claim_C7_feedback_rating [] "q1" "s1" 7).2 4 (by decide) (by decide)).1,
   ((claim_C7_feedback_rating [] "q1" "s1" 7).2 4 (by decide) (by decide)).2⟩

/-- Witness for C8: the doubly-rejected request carries a non-empty
message, the error card renders the message with a Try Again control, and
the catch branch builds a non-success response with a non-empty
message. -/
theorem claim_C8_witness :
    (errMessage .OutputRejected).isEmpty = false ∧
    renderResponseCard (some (catchResponse none))
      = .errorCard (jsRenderText (catchResponse none).message) true ∧
    ((catchResponse (some "boom")).success = false ∧
      (jsRenderText (catchResponse (some "boom")).message).isEmpty = false) :=
  ⟨claim_C8_failure_surface.1 envReject "Solve x^2 - 5x + 6 = 0"
      (errMessage .OutputRejected) (by decide),
   claim_C8_failure_surface.2.1 (catchResponse none) rfl,
   claim_C8_failure_surface.2.2 (some "boom")⟩

/-- Witness for C9: a whitespace-only question issues no POST, leaves the
state untouched, and the submit button is disabled. -/
theorem claim_C9_witness :
    handleSubmit ⟨"   ", none, false, false, 0⟩ (.error none)
      = (false, ⟨"   ", none, false, false, 0⟩) ∧
    submitDisabled ⟨"   ", none, false, false, 0⟩ = true :=
  claim_C9_empty_question ⟨"   ", none, false, false, 0⟩ (.error none)
    (by decide)

/-- Witness for C10: an unrecognized source tag falls to the default icon
and color. -/
theorem claim_C10_witness :
    getSourceIcon (some ⟨true, none, some "wikipedia", none, none⟩)
      = some .lightbulb ∧
    getSourceColor (some ⟨true, none, some "wikipedia", none, none⟩)
      = "#6B7280" :=
  claim_C10_source_totality.2.2.2.2.2.1
    ⟨true, none, some "wikipedia", none, none⟩ "wikipedia" rfl
    (by decide) (by decide) (by decide)

end MathAgent
